import Mathlib

/-!
Shallow embedding of the JSON-RPC greeting server
(`src/main.rs`, `src/routes/json_rpc.rs`).

The server exposes one POST endpoint whose handler `json_rpc_handler`
matches on the request's `method` string: on `"greeting"` it trims the
`name` parameter (Rust `str::trim`, Unicode White_Space), substitutes
`"World"` for an empty trimmed name, and returns a success envelope;
on any other method it returns the `-32601` / `"Method not found"`
error envelope.  Both arms are `HttpResponse::Ok()` (HTTP 200).
Request decoding is serde derive over the `GreetingRequest` /
`GreetingParams` structs; response serialization is serde derive in
struct-declaration field order.  JSON objects are modelled as
association lists of field name / value pairs.
-/

/-- Unicode White_Space test, the predicate behind Rust `char::is_whitespace`
used by `str::trim` in the handler. -/
def rustIsWhitespace (c : Char) : Bool :=
  decide ((0x09 ≤ c.toNat ∧ c.toNat ≤ 0x0D) ∨ c.toNat = 0x20 ∨ c.toNat = 0x85 ∨
    c.toNat = 0xA0 ∨ c.toNat = 0x1680 ∨ (0x2000 ≤ c.toNat ∧ c.toNat ≤ 0x200A) ∨
    c.toNat = 0x2028 ∨ c.toNat = 0x2029 ∨ c.toNat = 0x202F ∨ c.toNat = 0x205F ∨
    c.toNat = 0x3000)

/-- Rust `str::trim`: remove leading and trailing whitespace characters. -/
def rustTrim (s : String) : String :=
  String.mk (((s.data.dropWhile rustIsWhitespace).reverse.dropWhile rustIsWhitespace).reverse)

/-- `GreetingParams` struct (src/main.rs lines 4-7). -/
structure GreetingParams where
  name : String
deriving DecidableEq, Repr

/-- `GreetingRequest` struct (src/main.rs lines 9-15). -/
structure GreetingRequest where
  id : String
  jsonrpc : String
  method : String
  params : GreetingParams
deriving DecidableEq, Repr

/-- `GreetingResult` struct (src/main.rs lines 24-27). -/
structure GreetingResult where
  greeting : String
deriving DecidableEq, Repr

/-- `GreetingResponse` struct (src/main.rs lines 17-22): success envelope. -/
structure GreetingResponse where
  id : String
  jsonrpc : String
  result : GreetingResult
deriving DecidableEq, Repr

/-- `MethodNotFoundError` struct (src/main.rs lines 29-33). -/
structure MethodNotFoundError where
  code : Int
  message : String
deriving DecidableEq, Repr

/-- `MethodNotFoundErrorResponse` struct (src/main.rs lines 35-39): error envelope. -/
structure MethodNotFoundErrorResponse where
  error : MethodNotFoundError
  id : String
  jsonrpc : String
deriving DecidableEq, Repr

/-- The two response shapes the handler can produce: exactly one of the two
serde-serialized structs. -/
inductive JsonRpcBody where
  | success : GreetingResponse → JsonRpcBody
  | error : MethodNotFoundErrorResponse → JsonRpcBody
deriving DecidableEq, Repr

/-- An actix `HttpResponse` as the handler builds it: a status code and a
JSON body. -/
structure HttpResponse where
  status : Nat
  body : JsonRpcBody
deriving DecidableEq, Repr

/-- `json_rpc_handler` (src/main.rs lines 41-70): route on `method` — the
two-arm string match is modelled as an equality test against the single
registered literal — and build the success or error envelope, both with
`HttpResponse::Ok()` (status 200). -/
def json_rpc_handler (item : GreetingRequest) : HttpResponse :=
  if item.method = "greeting" then
    let name := rustTrim item.params.name
    let name := if name = "" then "World" else name
    let greeting := "Hello, " ++ name ++ "!"
    { status := 200,
      body := .success { id := item.id, jsonrpc := item.jsonrpc,
                         result := { greeting := greeting } } }
  else
    { status := 200,
      body := .error { error := { code := -32601, message := "Method not found" },
                       id := item.id, jsonrpc := item.jsonrpc } }

/-- JSON values as serde_json sees them (floating-point numbers aside):
null, booleans, integers, strings, arrays, and objects as association
lists of field name / value pairs. -/
inductive Json where
  | null : Json
  | bool : Bool → Json
  | int : Int → Json
  | str : String → Json
  | arr : List Json → Json
  | obj : List (String × Json) → Json

/-- Extract a JSON string value, failing on any other shape (serde type check). -/
def asStr : Json → Option String
  | .str s => some s
  | _ => none

/-- Field presence on a JSON object. -/
def Json.hasField : Json → String → Bool
  | .obj fs, k => fs.any (fun p => p.1 == k)
  | _, _ => false

/-- serde `Serialize` for `GreetingResult`: declaration field order. -/
def GreetingResult.toJson (r : GreetingResult) : Json :=
  .obj [("greeting", .str r.greeting)]

/-- serde `Serialize` for `GreetingResponse`: fields id, jsonrpc, result. -/
def GreetingResponse.toJson (r : GreetingResponse) : Json :=
  .obj [("id", .str r.id), ("jsonrpc", .str r.jsonrpc), ("result", r.result.toJson)]

/-- serde `Serialize` for `MethodNotFoundError`: fields code (integer), message. -/
def MethodNotFoundError.toJson (e : MethodNotFoundError) : Json :=
  .obj [("code", .int e.code), ("message", .str e.message)]

/-- serde `Serialize` for `MethodNotFoundErrorResponse`: fields error, id, jsonrpc. -/
def MethodNotFoundErrorResponse.toJson (r : MethodNotFoundErrorResponse) : Json :=
  .obj [("error", r.error.toJson), ("id", .str r.id), ("jsonrpc", .str r.jsonrpc)]

/-- Serialization of whichever envelope the handler produced. -/
def JsonRpcBody.toJson : JsonRpcBody → Json
  | .success r => r.toJson
  | .error r => r.toJson

/-- serde_json escaping for one character inside a JSON string. -/
def escapeChar (c : Char) : String :=
  if c = '"' then "\\\""
  else if c = '\\' then "\\\\"
  else if c = '\x08' then "\\b"
  else if c = '\t' then "\\t"
  else if c = '\n' then "\\n"
  else if c = '\x0C' then "\\f"
  else if c = '\r' then "\\r"
  else if c.toNat < 0x20 then
    "\\u00" ++ String.mk [Nat.digitChar (c.toNat / 16), Nat.digitChar (c.toNat % 16)]
  else String.mk [c]

/-- serde_json rendering of a string: quoted, with escapes. -/
def renderString (s : String) : String :=
  "\"" ++ String.join (s.data.map escapeChar) ++ "\""

mutual

/-- serde_json compact rendering of a JSON value. -/
def Json.render : Json → String
  | .null => "null"
  | .bool b => if b then "true" else "false"
  | .int n => toString n
  | .str s => renderString s
  | .arr xs => "[" ++ renderElems xs ++ "]"
  | .obj fs => "\x7b" ++ renderFields fs ++ "\x7d"

/-- Comma-separated array elements, in list order. -/
def renderElems : List Json → String
  | [] => ""
  | [v] => Json.render v
  | v :: rest => Json.render v ++ "," ++ renderElems rest

/-- Comma-separated `"key":value` pairs of an object, in list order. -/
def renderFields : List (String × Json) → String
  | [] => ""
  | [(k, v)] => renderString k ++ ":" ++ Json.render v
  | (k, v) :: rest => renderString k ++ ":" ++ Json.render v ++ "," ++ renderFields rest

end

/-- The bytes actix sends for the handler's response (`.json(...)` body). -/
def encodeResponse (r : HttpResponse) : String :=
  Json.render r.body.toJson

/-- The serde-derive map visitor for `GreetingParams`: walk the entries in
order; a second occurrence of `name` is a duplicate-field error, a non-string
`name` value is a type error, unknown fields are skipped; at the end the
`name` slot must be filled. -/
def paramsFields : List (String × Json) → Option String → Option GreetingParams
  | [], acc => acc.map (fun n => { name := n })
  | (k, v) :: rest, acc =>
      if k = "name" then
        if acc.isSome then none
        else (asStr v).bind (fun s => paramsFields rest (some s))
      else paramsFields rest acc

/-- serde `Deserialize` for `GreetingParams`: an object visited by
`paramsFields`, or — serde_json decodes structs from sequences positionally —
an array of exactly one element holding the `name` string; anything else
fails. -/
def decodeGreetingParams : Json → Option GreetingParams
  | .obj pfs => paramsFields pfs none
  | .arr [v] => (asStr v).map (fun n => { name := n })
  | _ => none

/-- The serde-derive map visitor for `GreetingRequest`: walk the entries in
order; a second occurrence of a known field is a duplicate-field error, a
value of the wrong type is a type error, unknown fields are skipped; at the
end all four slots must be filled. -/
def requestFields : List (String × Json) → Option String → Option String →
    Option String → Option GreetingParams → Option GreetingRequest
  | [], i, j, m, p =>
      match i, j, m, p with
      | some i, some j, some m, some p =>
          some { id := i, jsonrpc := j, method := m, params := p }
      | _, _, _, _ => none
  | (k, v) :: rest, i, j, m, p =>
      if k = "id" then
        if i.isSome then none
        else (asStr v).bind (fun s => requestFields rest (some s) j m p)
      else if k = "jsonrpc" then
        if j.isSome then none
        else (asStr v).bind (fun s => requestFields rest i (some s) m p)
      else if k = "method" then
        if m.isSome then none
        else (asStr v).bind (fun s => requestFields rest i j (some s) p)
      else if k = "params" then
        if p.isSome then none
        else (decodeGreetingParams v).bind (fun q => requestFields rest i j m (some q))
      else requestFields rest i j m p

/-- serde `Deserialize` for `GreetingRequest` (what the `web::Json` extractor
runs): an object visited by `requestFields`, or an array of exactly four
elements decoded positionally in declaration order (serde_json accepts
sequences for structs; too few elements is an invalid-length error, extras
are trailing-characters errors); anything else fails. -/
def decodeGreetingRequest : Json → Option GreetingRequest
  | .obj fs => requestFields fs none none none none
  | .arr [a, b, c, d] =>
      match asStr a, asStr b, asStr c, decodeGreetingParams d with
      | some i, some j, some m, some p =>
          some { id := i, jsonrpc := j, method := m, params := p }
      | _, _, _, _ => none
  | _ => none

/-- The request pipeline above the handler: the handler runs only on a body
that decoded; a body that fails to decode is rejected by the `web::Json`
extractor and never reaches dispatch. -/
def handleBody (j : Json) : Option HttpResponse :=
  (decodeGreetingRequest j).map json_rpc_handler

/-- The decode-success condition exactly as the spec sentence states it: the
body is an object, `id`, `jsonrpc`, `method` are strings, and `params` is an
object — nothing is required of the contents of `params`. -/
def claimDecodeOK (j : Json) : Bool :=
  match j with
  | .obj fs =>
      ((fs.lookup "id").bind asStr).isSome &&
      ((fs.lookup "jsonrpc").bind asStr).isSome &&
      ((fs.lookup "method").bind asStr).isSome &&
      (match fs.lookup "params" with
       | some (.obj _) => true
       | _ => false)
  | _ => false

/-- A JSON value acceptable for a string-typed struct field. -/
def strOK (v : Json) : Bool :=
  (asStr v).isSome

/-- The field named `name` occurs exactly once in the entry list, with a value
accepted by `dec`, every other occurrence of the name being absent (`filled`
says the one allowed occurrence was already consumed). -/
def fieldCond (name : String) (dec : Json → Bool) : List (String × Json) → Bool → Bool
  | [], filled => filled
  | (k, v) :: rest, filled =>
      if k = name then !filled && dec v && fieldCond name dec rest true
      else fieldCond name dec rest filled

/-- A JSON value acceptable for the `params` field: an object with the string
field `name` exactly once (unknown fields ignored), or a one-element array
holding a string. -/
def paramsOKB : Json → Bool
  | .obj pfs => fieldCond "name" strOK pfs false
  | .arr [v] => strOK v
  | _ => false

/-- The amended decode-success condition: an object in which each of id,
jsonrpc, method occurs exactly once with a string value and params occurs
exactly once with a value acceptable as greeting params (unknown fields
ignored), or a four-element array of three strings and an acceptable params
value (positional struct decoding). -/
def amendedDecodeOK : Json → Bool
  | .obj fs =>
      fieldCond "id" strOK fs false && fieldCond "jsonrpc" strOK fs false &&
      fieldCond "method" strOK fs false && fieldCond "params" paramsOKB fs false
  | .arr [a, b, c, d] => strOK a && strOK b && strOK c && paramsOKB d
  | _ => false

/-- Whether an object-shaped request body carries a `params` field whose value
decodes as greeting params. -/
def paramsDecodable (j : Json) : Bool :=
  match j with
  | .obj fs =>
      match fs.lookup "params" with
      | some p => (decodeGreetingParams p).isSome
      | none => false
  | _ => false

/-- Discriminate the success envelope. -/
def JsonRpcBody.isSuccess : JsonRpcBody → Bool
  | .success _ => true
  | .error _ => false

/-- The echoed `jsonrpc` field of either envelope. -/
def JsonRpcBody.jsonrpcOf : JsonRpcBody → String
  | .success r => r.jsonrpc
  | .error r => r.jsonrpc

/-- Replace the `jsonrpc` field of either envelope. -/
def JsonRpcBody.withJsonrpc : JsonRpcBody → String → JsonRpcBody
  | .success r, v => .success { r with jsonrpc := v }
  | .error r, v => .error { r with jsonrpc := v }

/-- A run of the server: each request is answered independently by the pure
handler; there is no state threaded between requests. -/
def processAll (reqs : List GreetingRequest) : List String :=
  reqs.map (fun q => encodeResponse (json_rpc_handler q))

/-- C1: for every decoded request with method exactly "greeting", the handler
returns a success envelope whose id and jsonrpc are the request's, and whose
greeting is "Hello, " ++ trim(name) ++ "!", with "World" substituted when the
trimmed name is empty. -/
theorem greeting_method_correct (req : GreetingRequest) (h : req.method = "greeting") :
    json_rpc_handler req =
      { status := 200,
        body := .success { id := req.id, jsonrpc := req.jsonrpc,
                           result := { greeting := "Hello, " ++
                             (if rustTrim req.params.name = "" then "World"
                              else rustTrim req.params.name) ++ "!" } } } := by
  simp [json_rpc_handler, h]

/-- C1 witness: the handler on a concrete greeting request with a padded name. -/
theorem greeting_method_correct_witness :
    (⟨"00000000-0000-0000-0000-000000000000", "2.0", "greeting",
        ⟨" Oliver "⟩⟩ : GreetingRequest).method = "greeting" ∧
    json_rpc_handler
        ⟨"00000000-0000-0000-0000-000000000000", "2.0", "greeting", ⟨" Oliver "⟩⟩ =
      { status := 200,
        body := .success ⟨"00000000-0000-0000-0000-000000000000", "2.0",
                          ⟨"Hello, Oliver!"⟩⟩ } := by
  refine ⟨rfl, ?_⟩
  have h := greeting_method_correct
    ⟨"00000000-0000-0000-0000-000000000000", "2.0", "greeting", ⟨" Oliver "⟩⟩ rfl
  rw [h]
  decide

/-- C2: for every decoded request whose method is anything other than exactly
"greeting", the handler returns the error envelope with code -32601 and message
"Method not found", echoing the request's id and jsonrpc. -/
theorem unknown_method_error (req : GreetingRequest) (h : req.method ≠ "greeting") :
    json_rpc_handler req =
      { status := 200,
        body := .error { error := { code := -32601, message := "Method not found" },
                         id := req.id, jsonrpc := req.jsonrpc } } := by
  simp [json_rpc_handler, h]

/-- C2 witness: a method that differs from "greeting" only by leading
whitespace still yields the -32601 envelope. -/
theorem unknown_method_error_witness :
    ((⟨"id-1", "2.0", " greeting", ⟨"Oliver"⟩⟩ : GreetingRequest).method ≠ "greeting") ∧
    json_rpc_handler ⟨"id-1", "2.0", " greeting", ⟨"Oliver"⟩⟩ =
      { status := 200,
        body := .error { error := { code := -32601, message := "Method not found" },
                         id := "id-1", jsonrpc := "2.0" } } := by
  exact ⟨by decide, unknown_method_error ⟨"id-1", "2.0", " greeting", ⟨"Oliver"⟩⟩ (by decide)⟩

/-- C3: the HTTP status is 200 for every decoded request, on the success
outcome and on the unknown-method error outcome alike. -/
theorem http_status_always_200 (req : GreetingRequest) :
    (json_rpc_handler req).status = 200 := by
  by_cases h : req.method = "greeting" <;> simp [json_rpc_handler, h]

/-- C4: dispatch is a total function on decoded requests — every request,
whatever its strings contain, yields a response, and that response is the
success envelope exactly when the method is "greeting". -/
theorem dispatch_total (req : GreetingRequest) :
    ∃ b, json_rpc_handler req = { status := 200, body := b } ∧
      b.isSuccess = (req.method == "greeting") := by
  by_cases h : req.method = "greeting" <;>
    simp [json_rpc_handler, h, JsonRpcBody.isSuccess]

/-- C5: the jsonrpc field is never validated — it is echoed back verbatim, and
replacing it with any other value changes nothing in the response except the
echoed jsonrpc field. -/
theorem jsonrpc_not_validated (i m n v w : String) :
    (json_rpc_handler ⟨i, v, m, ⟨n⟩⟩).body.jsonrpcOf = v ∧
    (json_rpc_handler ⟨i, v, m, ⟨n⟩⟩).body.withJsonrpc w =
      (json_rpc_handler ⟨i, w, m, ⟨n⟩⟩).body := by
  by_cases h : m = "greeting" <;>
    simp [json_rpc_handler, h, JsonRpcBody.jsonrpcOf, JsonRpcBody.withJsonrpc]

/-- C6: the dispatcher is deterministic and stateless — in any run, repeating a
request appends two byte-identical serialized responses. -/
theorem idempotent_byte_identical (pre : List GreetingRequest) (req : GreetingRequest) :
    processAll (pre ++ [req, req]) =
      processAll pre ++
        [encodeResponse (json_rpc_handler req), encodeResponse (json_rpc_handler req)] := by
  simp [processAll]

/-- C7: every response body carries exactly one of the fields "result" and
"error", so field presence discriminates the two envelope shapes. -/
theorem result_error_exclusive (req : GreetingRequest) :
    ((json_rpc_handler req).body.toJson.hasField "result" = true ∧
     (json_rpc_handler req).body.toJson.hasField "error" = false) ∨
    ((json_rpc_handler req).body.toJson.hasField "error" = true ∧
     (json_rpc_handler req).body.toJson.hasField "result" = false) := by
  by_cases h : req.method = "greeting"
  · left
    simp [json_rpc_handler, h, JsonRpcBody.toJson, GreetingResponse.toJson,
      GreetingResult.toJson, Json.hasField]
  · right
    simp [json_rpc_handler, h, JsonRpcBody.toJson, MethodNotFoundErrorResponse.toJson,
      MethodNotFoundError.toJson, Json.hasField]

/-- Helper: the params map visitor succeeds exactly when `name` occurs exactly
once with a string value among the remaining entries (`acc` holding an already
consumed occurrence). -/
theorem paramsFields_isSome (pfs : List (String × Json)) :
    ∀ acc : Option String,
    (paramsFields pfs acc).isSome = fieldCond "name" strOK pfs acc.isSome := by
  induction pfs with
  | nil =>
    intro acc
    cases acc <;> rfl
  | cons hd rest ih =>
    intro acc
    obtain ⟨k, v⟩ := hd
    by_cases hk : k = "name"
    · subst hk
      cases acc with
      | some s => simp [paramsFields, fieldCond]
      | none =>
        cases hv : asStr v with
        | none => simp [paramsFields, fieldCond, strOK, hv]
        | some s => simp [paramsFields, fieldCond, strOK, hv, ih]
    · simp [paramsFields, fieldCond, hk, ih]

/-- Helper: `decodeGreetingParams` succeeds exactly on `paramsOKB` values. -/
theorem decodeGreetingParams_isSome (v : Json) :
    (decodeGreetingParams v).isSome = paramsOKB v := by
  cases v with
  | null => rfl
  | bool b => rfl
  | int n => rfl
  | str s => rfl
  | obj pfs =>
    simpa using paramsFields_isSome pfs none
  | arr xs =>
    cases xs with
    | nil => rfl
    | cons a t =>
      cases t with
      | nil => simp [decodeGreetingParams, paramsOKB, strOK]
      | cons b t2 => rfl

/-- Helper: the request map visitor succeeds exactly when each of the four
known fields occurs exactly once among the remaining entries (or is already
consumed) with an acceptable value. -/
theorem requestFields_isSome (fs : List (String × Json)) :
    ∀ (i j m : Option String) (p : Option GreetingParams),
    (requestFields fs i j m p).isSome =
      (fieldCond "id" strOK fs i.isSome && fieldCond "jsonrpc" strOK fs j.isSome &&
       fieldCond "method" strOK fs m.isSome && fieldCond "params" paramsOKB fs p.isSome) := by
  induction fs with
  | nil =>
    intro i j m p
    cases i <;> cases j <;> cases m <;> cases p <;> rfl
  | cons hd rest ih =>
    intro i j m p
    obtain ⟨k, v⟩ := hd
    by_cases h1 : k = "id"
    · subst h1
      cases i with
      | some s => simp [requestFields, fieldCond]
      | none =>
        cases hv : asStr v with
        | none => simp [requestFields, fieldCond, strOK, hv]
        | some s => simp [requestFields, fieldCond, strOK, hv, ih]
    · by_cases h2 : k = "jsonrpc"
      · subst h2
        cases j with
        | some s => simp [requestFields, fieldCond, h1]
        | none =>
          cases hv : asStr v with
          | none => simp [requestFields, fieldCond, strOK, h1, hv]
          | some s => simp [requestFields, fieldCond, strOK, h1, hv, ih]
      · by_cases h3 : k = "method"
        · subst h3
          cases m with
          | some s => simp [requestFields, fieldCond, h1, h2]
          | none =>
            cases hv : asStr v with
            | none => simp [requestFields, fieldCond, strOK, h1, h2, hv]
            | some s => simp [requestFields, fieldCond, strOK, h1, h2, hv, ih]
        · by_cases h4 : k = "params"
          · subst h4
            cases p with
            | some q => simp [requestFields, fieldCond, h1, h2, h3]
            | none =>
              cases hv : decodeGreetingParams v with
              | none =>
                have hb : paramsOKB v = false := by
                  rw [← decodeGreetingParams_isSome, hv]
                  rfl
                simp [requestFields, fieldCond, h1, h2, h3, hv, hb]
              | some q =>
                have hb : paramsOKB v = true := by
                  rw [← decodeGreetingParams_isSome, hv]
                  rfl
                simp [requestFields, fieldCond, h1, h2, h3, hv, hb, ih]
          · simp [requestFields, fieldCond, h1, h2, h3, h4, ih]

/-- Helper: an unconsumed field condition says the field occurs exactly once,
and its sole occurrence — the one `lookup` finds — has an acceptable value. -/
theorem fieldCond_filled_iff (name : String) (dec : Json → Bool)
    (fs : List (String × Json)) :
    fieldCond name dec fs true = true ↔ fs.countP (fun q => q.1 == name) = 0 := by
  induction fs with
  | nil => simp [fieldCond]
  | cons hd rest ih =>
    obtain ⟨k, v⟩ := hd
    by_cases hk : k = name
    · subst hk
      simp [fieldCond, List.countP_cons]
    · simp [fieldCond, List.countP_cons, hk, ih]

/-- Helper: `fieldCond … false` holds exactly when the field occurs exactly
once with an acceptable value. -/
theorem fieldCond_once_iff (name : String) (dec : Json → Bool)
    (fs : List (String × Json)) :
    fieldCond name dec fs false = true ↔
      (fs.countP (fun q => q.1 == name) = 1 ∧
       ∃ v, fs.lookup name = some v ∧ dec v = true) := by
  induction fs with
  | nil => simp [fieldCond]
  | cons hd rest ih =>
    obtain ⟨k, v⟩ := hd
    by_cases hk : k = name
    · subst hk
      simp [fieldCond, List.countP_cons, List.lookup, fieldCond_filled_iff]
      tauto
    · have hnk : (name == k) = false := beq_eq_false_iff_ne.mpr (Ne.symm hk)
      simp [fieldCond, List.countP_cons, List.lookup, hk, hnk, ih]

/-- Helper: decoding succeeds exactly under `amendedDecodeOK`. -/
theorem decodeGreetingRequest_isSome (j : Json) :
    (decodeGreetingRequest j).isSome = amendedDecodeOK j := by
  cases j with
  | null => rfl
  | bool b => rfl
  | int n => rfl
  | str s => rfl
  | obj fs =>
    simpa using requestFields_isSome fs none none none none
  | arr xs =>
    cases xs with
    | nil => rfl
    | cons a t1 =>
      cases t1 with
      | nil => rfl
      | cons b t2 =>
        cases t2 with
        | nil => rfl
        | cons c t3 =>
          cases t3 with
          | nil => rfl
          | cons d t4 =>
            cases t4 with
            | cons e t5 => rfl
            | nil =>
              cases ha : asStr a <;> cases hb : asStr b <;> cases hc : asStr c <;>
                cases hd : decodeGreetingParams d <;>
                  simp [decodeGreetingRequest, amendedDecodeOK, strOK,
                    ← decodeGreetingParams_isSome, ha, hb, hc, hd]

/-- C8 counterexample: three bodies refute the claim as stated. An object with
params lacking the string field name satisfies every condition the claim lists
yet fails to decode; an object with a duplicated id field also satisfies them
yet fails to decode (serde duplicate-field error); and an array body — not a
JSON object, which the claim says must fail — decodes successfully
(positional struct decoding). -/
theorem decode_claim_counterexample :
    (claimDecodeOK (Json.obj [("id", Json.str "a"), ("jsonrpc", Json.str "2.0"),
        ("method", Json.str "greeting"), ("params", Json.obj [])]) = true ∧
     decodeGreetingRequest (Json.obj [("id", Json.str "a"), ("jsonrpc", Json.str "2.0"),
        ("method", Json.str "greeting"), ("params", Json.obj [])]) = none) ∧
    (claimDecodeOK (Json.obj [("id", Json.str "a"), ("id", Json.str "b"),
        ("jsonrpc", Json.str "2.0"), ("method", Json.str "greeting"),
        ("params", Json.obj [("name", Json.str "x")])]) = true ∧
     decodeGreetingRequest (Json.obj [("id", Json.str "a"), ("id", Json.str "b"),
        ("jsonrpc", Json.str "2.0"), ("method", Json.str "greeting"),
        ("params", Json.obj [("name", Json.str "x")])]) = none) ∧
    (claimDecodeOK (Json.arr [Json.str "a", Json.str "2.0", Json.str "greeting",
        Json.obj [("name", Json.str "x")]]) = false ∧
     decodeGreetingRequest (Json.arr [Json.str "a", Json.str "2.0", Json.str "greeting",
        Json.obj [("name", Json.str "x")]]) =
       some { id := "a", jsonrpc := "2.0", method := "greeting",
              params := { name := "x" } }) := by
  exact ⟨⟨rfl, rfl⟩, ⟨rfl, rfl⟩, ⟨rfl, rfl⟩⟩

/-- C8 (amended): a body decodes successfully exactly when it is a JSON object
in which id, jsonrpc, method each occur exactly once with string values and
params occurs exactly once with a value that decodes as greeting params — an
object with the string field name exactly once, or a one-element array holding
a string — unknown fields being ignored; or when it is a four-element array of
three strings and such a params value, decoded positionally. -/
theorem decode_iff_amended (j : Json) :
    (∃ r, decodeGreetingRequest j = some r) ↔ amendedDecodeOK j = true := by
  constructor
  · rintro ⟨r, hr⟩
    rw [← decodeGreetingRequest_isSome, hr]
    rfl
  · intro hA
    have h := decodeGreetingRequest_isSome j
    rw [hA] at h
    exact Option.isSome_iff_exists.mp h

/-- C9: serialization is deterministic with the serde declaration field order —
success envelopes as id, jsonrpc, result(greeting); error envelopes as
error(code, message), id, jsonrpc — with code rendered as a bare JSON integer,
as the repository's own test vectors show byte for byte. -/
theorem encode_fixed_field_order (i j n : String) :
    (json_rpc_handler ⟨i, j, "greeting", ⟨n⟩⟩).body.toJson =
      Json.obj [("id", Json.str i), ("jsonrpc", Json.str j),
                ("result", Json.obj [("greeting",
                  Json.str ("Hello, " ++
                    (if rustTrim n = "" then "World" else rustTrim n) ++ "!"))])] ∧
    (json_rpc_handler ⟨i, j, "wrong", ⟨n⟩⟩).body.toJson =
      Json.obj [("error", Json.obj [("code", Json.int (-32601)),
                  ("message", Json.str "Method not found")]),
                ("id", Json.str i), ("jsonrpc", Json.str j)] ∧
    encodeResponse (json_rpc_handler
        ⟨"00000000-0000-0000-0000-000000000000", "2.0", "greeting", ⟨"Oliver"⟩⟩) =
      "\x7b\"id\":\"00000000-0000-0000-0000-000000000000\",\"jsonrpc\":\"2.0\",\"result\":\x7b\"greeting\":\"Hello, Oliver!\"\x7d\x7d" ∧
    encodeResponse (json_rpc_handler
        ⟨"00000000-0000-0000-0000-000000000000", "2.0", "wrong", ⟨"Oliver"⟩⟩) =
      "\x7b\"error\":\x7b\"code\":-32601,\"message\":\"Method not found\"\x7d,\"id\":\"00000000-0000-0000-0000-000000000000\",\"jsonrpc\":\"2.0\"\x7d" := by
  exact ⟨rfl, rfl, rfl, rfl⟩

/-- C10 counterexample: a body with method "wrong" whose params is a JSON
array, not an object containing a string name, nonetheless decodes (serde
positional struct decoding yields name = "x") and is answered with the -32601
Method not found envelope instead of being rejected at decode time. -/
theorem params_array_counterexample :
    handleBody (Json.obj [("id", Json.str "a"), ("jsonrpc", Json.str "2.0"),
      ("method", Json.str "wrong"), ("params", Json.arr [Json.str "x"])]) =
      some { status := 200,
             body := .error { error := { code := -32601, message := "Method not found" },
                              id := "a", jsonrpc := "2.0" } } := by
  rfl

/-- C10 (amended): for every object-shaped request body, whatever its method,
decoding requires a params field whose value decodes as greeting params; a body
whose params is missing or fails to decode so is rejected before dispatch —
`handleBody` yields no response at all, hence no -32601 envelope. -/
theorem params_decode_required (fs : List (String × Json))
    (h : paramsDecodable (Json.obj fs) = false) :
    handleBody (Json.obj fs) = none := by
  have hs : (decodeGreetingRequest (Json.obj fs)).isSome = false := by
    rw [decodeGreetingRequest_isSome]
    simp only [amendedDecodeOK]
    cases hb : (fieldCond "id" strOK fs false && fieldCond "jsonrpc" strOK fs false &&
        fieldCond "method" strOK fs false && fieldCond "params" paramsOKB fs false) with
    | false => rfl
    | true =>
      exfalso
      have hp : fieldCond "params" paramsOKB fs false = true := by
        simp only [Bool.and_eq_true] at hb
        exact hb.2
      obtain ⟨hcount, v, hv, hdec⟩ := (fieldCond_once_iff "params" paramsOKB fs).mp hp
      simp only [paramsDecodable, hv] at h
      rw [decodeGreetingParams_isSome] at h
      rw [h] at hdec
      exact Bool.false_ne_true hdec
  have hd : decodeGreetingRequest (Json.obj fs) = none := by
    cases hde : decodeGreetingRequest (Json.obj fs) with
    | none => rfl
    | some r => rw [hde] at hs; exact absurd hs (by simp)
  simp [handleBody, hd]

/-- C10 witness: a body with method "wrong" and empty params object is
rejected at decode time instead of receiving a -32601 envelope. -/
theorem params_decode_required_witness :
    paramsDecodable (Json.obj [("id", Json.str "a"), ("jsonrpc", Json.str "2.0"),
      ("method", Json.str "wrong"), ("params", Json.obj [])]) = false ∧
    handleBody (Json.obj [("id", Json.str "a"), ("jsonrpc", Json.str "2.0"),
      ("method", Json.str "wrong"), ("params", Json.obj [])]) = none := by
  exact ⟨rfl, params_decode_required _ rfl⟩
